import Mathlib

/-!
Verification of `initialize_devnet.py` (SolSafe devnet setup advisor).

The script is a straight-line program: it prints a banner, shells out to
`solana address` via `run_cmd`, and on success prints a wallet line, a
fixed validator list, next-step instructions and a JSON dump of the
validator list; on failure it prints a single error line and returns.

We embed it shallowly: the outside world is an oracle `Env` mapping a
command string to the outcome of spawning it (either the child process
completes with a returncode / stdout / stderr triple, or process creation
raises an exception carrying a message).  `main` is translated to a pure
function producing the ordered trace of observable events (lines passed
to `print`, commands passed to `run_cmd`) together with the final
configuration record and an `Except` value recording whether the run
raised an uncaught exception (the source contains no `raise` and
`run_cmd` catches everything, so both exits are normal returns).
-/

namespace SolSafe

/-- Outcome of attempting to spawn an external command: either the child
process completes (with `returncode`, captured `stdout` and `stderr`, as
`subprocess.run(..., check=False)` reports them), or process creation
itself raises an exception whose description is `msg`. -/
inductive SpawnResult where
  | completed (returncode : Int) (stdout stderr : String)
  | raised (msg : String)
  deriving DecidableEq

/-- The external world: what spawning each command string would do. -/
def Env : Type := String → SpawnResult

/-- Observable events of a run: a string passed to `print`, or a command
handed to the subprocess machinery. -/
inductive Event where
  | printed (s : String)
  | spawned (cmd : String)
  deriving DecidableEq

/-- Configuration constant `PROGRAM_ID` (line 13 of the source). -/
def PROGRAM_ID : String := "FfV3AHU6WS7aPz53DnVvWBMEZR46ydGkEtKpLiKfRTrR"

/-- Configuration constant `RPC_ENDPOINT` (line 14 of the source). -/
def RPC_ENDPOINT : String := "https://api.devnet.solana.com"

/-- Configuration constant `VALIDATORS` (lines 17-23 of the source). -/
def VALIDATORS : List String :=
  ["9mtqPQnWcdUJjVHqYaWGHwwFswHLAEaMkMoLMsctAfms",
   "3ogts3UmEwRBdGNScChzKpcreuPPNBC45TM148fCTEdM",
   "Eaph3z9pGPH9yUkDQdUZiG4ejEwMrUXxLsP7wGehBasy",
   "GseuivbeqFdgQnZuis1eYUjAE2bmZtA695uKxtuojdWD",
   "CbQDdW66fhxGBAxyuR1gHmvtGfvBcpMosaNWo8XNyJ5M"]

/-- The module-level configuration of the script, as one record, so that
its preservation across the operations can be stated. -/
structure Config where
  programId : String
  rpcEndpoint : String
  validators : List String
  deriving DecidableEq

/-- The configuration the script starts with. -/
def initialConfig : Config := ⟨PROGRAM_ID, RPC_ENDPOINT, VALIDATORS⟩

/-- `run_cmd` (lines 25-31): runs the command and returns
`(returncode, stdout, stderr)`; `check=False` means no exception on a
non-zero exit, and the `except Exception` handler converts a spawn
failure into `(1, "", str(e))`. -/
def runCmd (env : Env) (cmd : String) : Int × String × String :=
  match env cmd with
  | SpawnResult.completed rc out err => (rc, out, err)
  | SpawnResult.raised e => (1, "", e)

/-- Modelled from the spec and the Python standard library: the ASCII
whitespace characters removed by `str.strip()` (space, tab, newline,
carriage return, vertical tab, form feed). -/
def isPySpace (c : Char) : Bool :=
  c = ' ' || c = '\t' || c = '\n' || c = '\r' ||
    c = Char.ofNat 11 || c = Char.ofNat 12

/-- Modelled from the spec and the Python standard library: `str.strip()`
with no argument removes leading and trailing whitespace. -/
def pyStrip (s : String) : String :=
  String.mk (((s.data.dropWhile isPySpace).reverse.dropWhile isPySpace).reverse)

/-- Lowercase hexadecimal digit, as Python's `json` module emits. -/
def hexDigit (n : Nat) : Char :=
  if n < 10 then Char.ofNat (48 + n) else Char.ofNat (87 + n)

/-- Four-digit lowercase hexadecimal rendering of `n < 0x10000`. -/
def hex4 (n : Nat) : List Char :=
  [hexDigit (n / 4096 % 16), hexDigit (n / 256 % 16),
   hexDigit (n / 16 % 16), hexDigit (n % 16)]

/-- Modelled from the Python standard library: how `json.dumps` (with its
default `ensure_ascii=True`) renders one character inside a string
literal. -/
def jsonEscapeChar (c : Char) : List Char :=
  if c = '"' then ['\\', '"']
  else if c = '\\' then ['\\', '\\']
  else if c = '\n' then ['\\', 'n']
  else if c = '\t' then ['\\', 't']
  else if c = '\r' then ['\\', 'r']
  else if c.toNat = 8 then ['\\', 'b']
  else if c.toNat = 12 then ['\\', 'f']
  else if c.toNat < 32 || c.toNat ≥ 127 then
    if c.toNat < 65536 then '\\' :: 'u' :: hex4 c.toNat
    else
      ('\\' :: 'u' :: hex4 (55296 + (c.toNat - 65536) / 1024)) ++
        ('\\' :: 'u' :: hex4 (56320 + (c.toNat - 65536) % 1024))
  else [c]

/-- A JSON string literal for `s`, per Python's `json.dumps`. -/
def jsonQuote (s : String) : String :=
  String.mk ('"' :: (s.data.map jsonEscapeChar).flatten ++ ['"'])

/-- Modelled from the Python standard library: `json.dumps(xs, indent=2)`
for a list of strings: a bracketed block, one element per line, each
indented by two spaces, separated by commas. -/
def json_dumps_indent2 (xs : List String) : String :=
  match xs with
  | [] => "[]"
  | _ =>
    "[\n" ++ String.intercalate ",\n" (xs.map (fun s => "  " ++ jsonQuote s)) ++ "\n]"

/-- The command string of the dead second external call (lines 48-50). -/
def grindCmd : String :=
  "solana-keygen grind-validator --starts-with global:1 --starts-with global"

/-- Events of the banner plus the first external call (lines 34-39),
reading the configuration record. -/
def preludeEventsG (cfg : Config) : List Event :=
  [Event.printed "🚀 SolSafe Devnet Initialization",
   Event.printed ("Program ID: " ++ cfg.programId),
   Event.printed ("RPC: " ++ cfg.rpcEndpoint ++ "\n"),
   Event.spawned "solana address"]

/-- `main` (lines 33-65) over an explicit configuration record: returns
the ordered event trace, the configuration as it stands when `main`
returns (the source never assigns to any of the three globals), and
`Except.ok ()` on each exit because no exception escapes (there is no
`raise`, and `run_cmd` catches all exceptions internally). -/
def mainG (env : Env) (cfg : Config) : List Event × Config × Except String Unit :=
  let r := runCmd env "solana address"
  if r.1 ≠ 0 then
    (preludeEventsG cfg ++ [Event.printed ("❌ Failed to get wallet: " ++ r.2.2)],
     cfg, Except.ok ())
  else
    let wallet := pyStrip r.2.1
    let _r2 := runCmd env grindCmd
    (preludeEventsG cfg ++
      [Event.printed ("✅ Wallet: " ++ wallet ++ "\n"),
       Event.spawned grindCmd,
       Event.printed "📋 Validator List:"] ++
      cfg.validators.enum.map
        (fun p => Event.printed ("  " ++ toString (p.1 + 1) ++ ". " ++ p.2)) ++
      [Event.printed "\n⏳ Next Steps:",
       Event.printed "1. Use Solana Playground to call initialize instruction",
       Event.printed "   - Quorum: 5 validators",
       Event.printed "   - Min jurors: 2 (2/3 of 5 = 3.33 → 4 required)",
       Event.printed "\n2. Call sync_validators with the validator list above",
       Event.printed "\n3. Submit a test case and vote with validators",
       Event.printed "\n📝 Validator list JSON:",
       Event.printed (json_dumps_indent2 cfg.validators)],
     cfg, Except.ok ())

/-- The script's `main` run against the module-level configuration. -/
def main (env : Env) : List Event × Config × Except String Unit :=
  mainG env initialConfig

/-- The lines printed during a trace, in order. -/
def outputOf (evs : List Event) : List String :=
  evs.filterMap (fun e => match e with
    | Event.printed s => some s
    | Event.spawned _ => none)

/-- The commands spawned during a trace, in order. -/
def spawnedOf (evs : List Event) : List String :=
  evs.filterMap (fun e => match e with
    | Event.printed _ => none
    | Event.spawned c => some c)

/-- Everything `main` prints, in order. -/
def mainOutput (env : Env) : List String := outputOf (main env).1

/-- Every external command `main` spawns, in order. -/
def mainSpawned (env : Env) : List String := spawnedOf (main env).1

/-- Process exit status of `python initialize_devnet.py`: the
`if __name__ == "__main__"` guard calls `main()`; normal return gives
exit status 0, an uncaught exception would give a non-zero status. -/
def scriptExitCode (env : Env) : Nat :=
  match (main env).2.2 with
  | Except.ok _ => 0
  | Except.error _ => 1

/-- The three banner lines (lines 34-36). -/
def bannerLines : List String :=
  ["🚀 SolSafe Devnet Initialization",
   "Program ID: " ++ PROGRAM_ID,
   "RPC: " ++ RPC_ENDPOINT ++ "\n"]

/-- JSON insignificant whitespace. -/
def isJsonWs (c : Char) : Bool := c = ' ' || c = '\t' || c = '\n' || c = '\r'

/-- Value of a hexadecimal digit character, if it is one. -/
def hexVal (c : Char) : Option Nat :=
  if 48 ≤ c.toNat ∧ c.toNat ≤ 57 then some (c.toNat - 48)
  else if 97 ≤ c.toNat ∧ c.toNat ≤ 102 then some (c.toNat - 87)
  else if 65 ≤ c.toNat ∧ c.toNat ≤ 70 then some (c.toNat - 55)
  else none

/-- Modelled from the spec (the `parseJSON` of its round-trip property):
decode the body of a JSON string literal after its opening quote,
returning the decoded string and the input remaining after the closing
quote.  Escape sequences cover the JSON basic escapes and `\uXXXX` for
non-surrogate code points.  `fuel` bounds the recursion by the input
length. -/
def parseStringBody (fuel : Nat) (acc : List Char) (cs : List Char) :
    Option (String × List Char) :=
  match fuel with
  | 0 => none
  | fuel + 1 =>
    match cs with
    | [] => none
    | c :: rest =>
      if c = '"' then some (String.mk acc.reverse, rest)
      else if c = '\\' then
        match rest with
        | [] => none
        | e :: rest2 =>
          if e = '"' then parseStringBody fuel ('"' :: acc) rest2
          else if e = '\\' then parseStringBody fuel ('\\' :: acc) rest2
          else if e = '/' then parseStringBody fuel ('/' :: acc) rest2
          else if e = 'b' then parseStringBody fuel (Char.ofNat 8 :: acc) rest2
          else if e = 'f' then parseStringBody fuel (Char.ofNat 12 :: acc) rest2
          else if e = 'n' then parseStringBody fuel ('\n' :: acc) rest2
          else if e = 'r' then parseStringBody fuel ('\r' :: acc) rest2
          else if e = 't' then parseStringBody fuel ('\t' :: acc) rest2
          else if e = 'u' then
            match rest2 with
            | h1 :: h2 :: h3 :: h4 :: rest3 =>
              match hexVal h1, hexVal h2, hexVal h3, hexVal h4 with
              | some a, some b, some c2, some d =>
                let n := a * 4096 + b * 256 + c2 * 16 + d
                if 55296 ≤ n ∧ n < 57344 then none
                else parseStringBody fuel (Char.ofNat n :: acc) rest3
              | _, _, _, _ => none
            | _ => none
          else none
      else parseStringBody fuel (c :: acc) rest

/-- Modelled from the spec (the `parseJSON` of its round-trip property):
after the opening `[`, parse a comma-separated sequence of string
literals up to the closing `]`. -/
def parseArrayItems (fuel : Nat) (acc : List String) (cs : List Char) :
    Option (List String × List Char) :=
  match fuel with
  | 0 => none
  | fuel + 1 =>
    match cs.dropWhile isJsonWs with
    | '"' :: rest =>
      match parseStringBody rest.length [] rest with
      | some (s, rest2) =>
        match rest2.dropWhile isJsonWs with
        | ',' :: rest3 => parseArrayItems fuel (acc ++ [s]) rest3
        | ']' :: rest3 => some (acc ++ [s], rest3)
        | _ => none
      | none => none
    | _ => none

/-- Modelled from the spec (the `parseJSON` of its round-trip property):
parse a complete JSON document consisting of one array of strings;
`none` when the text is not such a document. -/
def parseJsonStringArray (s : String) : Option (List String) :=
  match s.data.dropWhile isJsonWs with
  | '[' :: rest =>
    match rest.dropWhile isJsonWs with
    | ']' :: rest2 => if (rest2.dropWhile isJsonWs).isEmpty then some [] else none
    | _ =>
      match parseArrayItems (rest.length + 1) [] rest with
      | some (xs, rest2) =>
        if (rest2.dropWhile isJsonWs).isEmpty then some xs else none
      | none => none
  | _ => none

/-- `run_cmd` viewed against the configuration record: it reads none of
the module-level configuration and assigns none of it, so the
configuration passes through untouched. -/
def runCmdG (env : Env) (cmd : String) (cfg : Config) :
    (Int × String × String) × Config :=
  (runCmd env cmd, cfg)

/-- The wallet line printed on success (line 45). -/
def walletLine (w : String) : String := "✅ Wallet: " ++ w ++ "\n"

/-- The validator-list block as printed (lines 53-55), written out. -/
def validatorLines : List String :=
  ["📋 Validator List:",
   "  1. 9mtqPQnWcdUJjVHqYaWGHwwFswHLAEaMkMoLMsctAfms",
   "  2. 3ogts3UmEwRBdGNScChzKpcreuPPNBC45TM148fCTEdM",
   "  3. Eaph3z9pGPH9yUkDQdUZiG4ejEwMrUXxLsP7wGehBasy",
   "  4. GseuivbeqFdgQnZuis1eYUjAE2bmZtA695uKxtuojdWD",
   "  5. CbQDdW66fhxGBAxyuR1gHmvtGfvBcpMosaNWo8XNyJ5M"]

/-- The next-steps block (lines 57-62). -/
def nextStepsLines : List String :=
  ["\n⏳ Next Steps:",
   "1. Use Solana Playground to call initialize instruction",
   "   - Quorum: 5 validators",
   "   - Min jurors: 2 (2/3 of 5 = 3.33 → 4 required)",
   "\n2. Call sync_validators with the validator list above",
   "\n3. Submit a test case and vote with validators"]

/-- The closing JSON block (lines 64-65). -/
def jsonTailLines : List String :=
  ["\n📝 Validator list JSON:", json_dumps_indent2 VALIDATORS]

theorem mainG_fail (env : Env) (cfg : Config) (rc : Int) (out err : String)
    (h : runCmd env "solana address" = (rc, out, err)) (hrc : rc ≠ 0) :
    mainG env cfg =
      (preludeEventsG cfg ++ [Event.printed ("❌ Failed to get wallet: " ++ err)],
       cfg, Except.ok ()) := by
  unfold mainG
  rw [h]
  simp [hrc]

theorem mainG_success (env : Env) (cfg : Config) (out err : String)
    (h : runCmd env "solana address" = (0, out, err)) :
    mainG env cfg =
      (preludeEventsG cfg ++
        [Event.printed ("✅ Wallet: " ++ pyStrip out ++ "\n"),
         Event.spawned grindCmd,
         Event.printed "📋 Validator List:"] ++
        cfg.validators.enum.map
          (fun p => Event.printed ("  " ++ toString (p.1 + 1) ++ ". " ++ p.2)) ++
        [Event.printed "\n⏳ Next Steps:",
         Event.printed "1. Use Solana Playground to call initialize instruction",
         Event.printed "   - Quorum: 5 validators",
         Event.printed "   - Min jurors: 2 (2/3 of 5 = 3.33 → 4 required)",
         Event.printed "\n2. Call sync_validators with the validator list above",
         Event.printed "\n3. Submit a test case and vote with validators",
         Event.printed "\n📝 Validator list JSON:",
         Event.printed (json_dumps_indent2 cfg.validators)],
       cfg, Except.ok ()) := by
  unfold mainG
  rw [h]
  simp

theorem mainOutput_fail (env : Env) (rc : Int) (out err : String)
    (h : runCmd env "solana address" = (rc, out, err)) (hrc : rc ≠ 0) :
    mainOutput env = bannerLines ++ ["❌ Failed to get wallet: " ++ err] := by
  unfold mainOutput main
  rw [mainG_fail env initialConfig rc out err h hrc]
  rfl

theorem mainOutput_success (env : Env) (out err : String)
    (h : runCmd env "solana address" = (0, out, err)) :
    mainOutput env =
      bannerLines ++ [walletLine (pyStrip out)] ++ validatorLines ++
        nextStepsLines ++ jsonTailLines := by
  unfold mainOutput main
  rw [mainG_success env initialConfig out err h]
  rfl

/-- Environment where every command succeeds; `solana address` prints a
wallet address surrounded by whitespace. -/
def envOk : Env := fun _ => SpawnResult.completed 0 " 7xKXtg2CWdevnetWallet \n" ""

/-- Environment where every command exits 1 with stderr
`command not found` (the spec's Scenario B). -/
def envFail : Env := fun _ => SpawnResult.completed 1 "" "command not found"

/-- Environment where process creation itself raises (Scenario C). -/
def envRaise : Env := fun _ => SpawnResult.raised "No such file or directory"

/-- Environment agreeing with `envOk` on `solana address` but whose
second (key-derivation) call raises instead. -/
def envOkAlt : Env := fun c =>
  if c = "solana address" then SpawnResult.completed 0 " 7xKXtg2CWdevnetWallet \n" ""
  else SpawnResult.raised "boom"

/-- Environment where `solana address` exits 0 with whitespace-only
stdout. -/
def envWsOut : Env := fun _ => SpawnResult.completed 0 "  \n" ""

/-- C1: when the wallet-CLI call returns a non-zero exit code, the output
after the banner is exactly one error line containing the captured stderr
text, and the run ends there: no validator list, no next-steps text and
no JSON block are printed. -/
theorem C1_failure_prints_single_error_line (env : Env) (rc : Int) (out err : String)
    (h : runCmd env "solana address" = (rc, out, err)) (hrc : rc ≠ 0) :
    mainOutput env = bannerLines ++ ["❌ Failed to get wallet: " ++ err] :=
  mainOutput_fail env rc out err h hrc

/-- Witness for C1 at the concrete Scenario-B environment. -/
theorem C1_failure_prints_single_error_line_witness :
    mainOutput envFail = bannerLines ++ ["❌ Failed to get wallet: " ++ "command not found"] :=
  C1_failure_prints_single_error_line envFail 1 "" "command not found" rfl (by decide)

/-- C2: `run_cmd` is total and never propagates an exception: when the
child process completes it returns the `(exit code, stdout, stderr)`
triple unchanged (no raise on non-zero exit), and when process creation
raises it returns exit code 1, empty stdout, and the exception's
description in place of stderr. -/
theorem C2_runCmd_total_no_raise (env : Env) (cmd : String) (rc : Int)
    (out err msg : String) :
    (env cmd = SpawnResult.completed rc out err → runCmd env cmd = (rc, out, err)) ∧
    (env cmd = SpawnResult.raised msg → runCmd env cmd = (1, "", msg)) := by
  constructor <;> intro h <;> simp [runCmd, h]

/-- Witness for C2 at a completed-with-failure and a raising environment. -/
theorem C2_runCmd_total_no_raise_witness :
    runCmd envFail "solana address" = (1, "", "command not found") ∧
    runCmd envRaise "solana address" = (1, "", "No such file or directory") :=
  ⟨(C2_runCmd_total_no_raise envFail "solana address" 1 "" "command not found" "m").1 rfl,
   (C2_runCmd_total_no_raise envRaise "solana address" 0 "" "" "No such file or directory").2 rfl⟩

set_option maxRecDepth 10000 in
/-- C3: on every successful run, the trailing JSON block of the output
parses back to exactly the five-element validator list, in order
(round-trip), and is serialized with 2-space indentation
(definitionally, by `json_dumps_indent2`). -/
theorem C3_trailing_json_roundtrip (env : Env) (out err : String)
    (h : runCmd env "solana address" = (0, out, err)) :
    (mainOutput env).getLast? = some (json_dumps_indent2 VALIDATORS) ∧
    parseJsonStringArray (json_dumps_indent2 VALIDATORS) = some VALIDATORS := by
  constructor
  · rw [mainOutput_success env out err h]
    rfl
  · decide

/-- Witness for C3 at a concrete succeeding environment. -/
theorem C3_trailing_json_roundtrip_witness :
    (mainOutput envOk).getLast? = some (json_dumps_indent2 VALIDATORS) ∧
    parseJsonStringArray (json_dumps_indent2 VALIDATORS) = some VALIDATORS :=
  C3_trailing_json_roundtrip envOk " 7xKXtg2CWdevnetWallet \n" "" rfl

/-- C4: on every successful run the printed validator list is exactly the
same fixed five identifiers, in the same fixed order, one per line with
1-based indices, independent of any runtime input. -/
theorem C4_fixed_validator_list (env : Env) (out err : String)
    (h : runCmd env "solana address" = (0, out, err)) :
    mainOutput env =
      bannerLines ++ ["✅ Wallet: " ++ pyStrip out ++ "\n"] ++
        ["📋 Validator List:",
         "  1. 9mtqPQnWcdUJjVHqYaWGHwwFswHLAEaMkMoLMsctAfms",
         "  2. 3ogts3UmEwRBdGNScChzKpcreuPPNBC45TM148fCTEdM",
         "  3. Eaph3z9pGPH9yUkDQdUZiG4ejEwMrUXxLsP7wGehBasy",
         "  4. GseuivbeqFdgQnZuis1eYUjAE2bmZtA695uKxtuojdWD",
         "  5. CbQDdW66fhxGBAxyuR1gHmvtGfvBcpMosaNWo8XNyJ5M"] ++
        nextStepsLines ++ jsonTailLines := by
  rw [mainOutput_success env out err h]
  rfl

/-- Witness for C4 at a concrete succeeding environment. -/
theorem C4_fixed_validator_list_witness :
    mainOutput envOk =
      bannerLines ++ ["✅ Wallet: " ++ pyStrip " 7xKXtg2CWdevnetWallet \n" ++ "\n"] ++
        ["📋 Validator List:",
         "  1. 9mtqPQnWcdUJjVHqYaWGHwwFswHLAEaMkMoLMsctAfms",
         "  2. 3ogts3UmEwRBdGNScChzKpcreuPPNBC45TM148fCTEdM",
         "  3. Eaph3z9pGPH9yUkDQdUZiG4ejEwMrUXxLsP7wGehBasy",
         "  4. GseuivbeqFdgQnZuis1eYUjAE2bmZtA695uKxtuojdWD",
         "  5. CbQDdW66fhxGBAxyuR1gHmvtGfvBcpMosaNWo8XNyJ5M"] ++
        nextStepsLines ++ jsonTailLines :=
  C4_fixed_validator_list envOk " 7xKXtg2CWdevnetWallet \n" "" rfl

/-- C5: on every successful run whose captured stdout is `out`, the
wallet line (the fourth printed line, right after the banner) contains
`out` with leading and trailing whitespace removed. -/
theorem C5_wallet_line_contains_stripped (env : Env) (out err : String)
    (h : runCmd env "solana address" = (0, out, err)) :
    ∃ pre suf, (mainOutput env)[3]? = some (pre ++ pyStrip out ++ suf) := by
  refine ⟨"✅ Wallet: ", "\n", ?_⟩
  rw [mainOutput_success env out err h]
  rfl

/-- Witness for C5 at a concrete succeeding environment. -/
theorem C5_wallet_line_contains_stripped_witness :
    ∃ pre suf,
      (mainOutput envOk)[3]? = some (pre ++ pyStrip " 7xKXtg2CWdevnetWallet \n" ++ suf) :=
  C5_wallet_line_contains_stripped envOk " 7xKXtg2CWdevnetWallet \n" "" rfl

/-- C6: the output of `main` does not depend on the second external call:
two runs agreeing on the wallet-CLI result print identical text, however
the key-derivation call's exit code, stdout or stderr differ. -/
theorem C6_dead_step_noninterference (env1 env2 : Env)
    (h : runCmd env1 "solana address" = runCmd env2 "solana address") :
    mainOutput env1 = mainOutput env2 := by
  rcases hr : runCmd env1 "solana address" with ⟨rc, out, err⟩
  have hr2 : runCmd env2 "solana address" = (rc, out, err) := by rw [← h, hr]
  by_cases hrc : rc = 0
  · subst hrc
    rw [mainOutput_success env1 out err hr, mainOutput_success env2 out err hr2]
  · rw [mainOutput_fail env1 rc out err hr hrc, mainOutput_fail env2 rc out err hr2 hrc]

/-- Witness for C6: environments agreeing on `solana address` where the
second call completes in one and raises in the other. -/
theorem C6_dead_step_noninterference_witness :
    mainOutput envOk = mainOutput envOkAlt :=
  C6_dead_step_noninterference envOk envOkAlt (by decide)

/-- C7: the process exit status is 0 for every run, including runs where
wallet retrieval fails; failure is signaled only by printed text. -/
theorem C7_exit_status_always_zero (env : Env) : scriptExitCode env = 0 := by
  rcases hr : runCmd env "solana address" with ⟨rc, out, err⟩
  by_cases hrc : rc = 0
  · subst hrc
    unfold scriptExitCode main
    rw [mainG_success env initialConfig out err hr]
  · unfold scriptExitCode main
    rw [mainG_fail env initialConfig rc out err hr hrc]

/-- C8: the configuration (program id, RPC endpoint, validator list) is
never mutated: `run_cmd` and every path of `main` return it unchanged,
for any starting configuration and any environment. -/
theorem C8_config_never_mutated (env : Env) (cfg : Config) (cmd : String) :
    (runCmdG env cmd cfg).2 = cfg ∧ (mainG env cfg).2.1 = cfg := by
  refine ⟨rfl, ?_⟩
  rcases hr : runCmd env "solana address" with ⟨rc, out, err⟩
  by_cases hrc : rc = 0
  · subst hrc
    rw [mainG_success env cfg out err hr]
  · rw [mainG_fail env cfg rc out err hr hrc]

/-- C9: when the wallet CLI exits 0 with whitespace-only stdout, `main`
does not fail: it prints the wallet line with an empty address and the
complete runbook, and the exit status is still 0 (no format validation
of the wallet string). -/
theorem C9_whitespace_wallet_full_runbook (env : Env) (out err : String)
    (h : runCmd env "solana address" = (0, out, err)) (hw : pyStrip out = "") :
    mainOutput env =
      bannerLines ++ ["✅ Wallet: \n"] ++ validatorLines ++ nextStepsLines ++ jsonTailLines ∧
    scriptExitCode env = 0 := by
  constructor
  · rw [mainOutput_success env out err h, hw]
    rfl
  · unfold scriptExitCode main
    rw [mainG_success env initialConfig out err h]

/-- Witness for C9 at a whitespace-only-stdout environment. -/
theorem C9_whitespace_wallet_full_runbook_witness :
    mainOutput envWsOut =
      bannerLines ++ ["✅ Wallet: \n"] ++ validatorLines ++ nextStepsLines ++ jsonTailLines ∧
    scriptExitCode envWsOut = 0 :=
  C9_whitespace_wallet_full_runbook envWsOut "  \n" "" rfl (by decide)

/-- C10: a failed run spawns exactly one external command (the wallet
call); the key-derivation command is spawned only when wallet retrieval
succeeds. -/
theorem C10_failure_spawns_once (env : Env) (rc : Int) (out err : String)
    (h : runCmd env "solana address" = (rc, out, err)) :
    (rc ≠ 0 → mainSpawned env = ["solana address"]) ∧
    (rc = 0 → mainSpawned env = ["solana address", grindCmd]) := by
  constructor
  · intro hrc
    unfold mainSpawned main
    rw [mainG_fail env initialConfig rc out err h hrc]
    rfl
  · intro hrc
    subst hrc
    unfold mainSpawned main
    rw [mainG_success env initialConfig out err h]
    rfl

/-- Witness for C10 at a failing and a succeeding environment. -/
theorem C10_failure_spawns_once_witness :
    mainSpawned envFail = ["solana address"] ∧
    mainSpawned envOk = ["solana address", grindCmd] :=
  ⟨(C10_failure_spawns_once envFail 1 "" "command not found" rfl).1 (by decide),
   (C10_failure_spawns_once envOk 0 " 7xKXtg2CWdevnetWallet \n" "" rfl).2 rfl⟩

end SolSafe
